import Mathlib

/-!
Shallow embedding of `src/router.ts` from the snowswap-sdk repository:
the challenge resolver (`resolveChallenge`) and the swap-call parameter
builder (`Router.swapCallParameters`), together with theorems checking
the specification's claims about them.

Modelling conventions:
* BigNumber / JSBI values are `Nat` (addresses are 160-bit values).
* Hex strings are `List Char`; the JavaScript string primitives used by
  the source (`Buffer.from(_, 'hex')`, `parseInt(_, 16)`, `slice`,
  left padding) are embedded with their actual semantics, including the
  silent truncation of hex decoding at the first non-hex character and
  `b ^ undefined = b` for out-of-range buffer reads.
* The `Math.random`-driven candidate generation (`genRanHex(40)` plus
  `BigNumber.from`) is modelled as a stream `Nat → Nat` of drawn
  candidate values; the unbounded `while` loop is modelled by
  `Nat.find` under the hypothesis that some draw is accepted.
* The effectful steps of `swapCallParameters` (resolver invocation,
  recipient validation, amount and deadline encoding) are recorded in
  an event trace so that evaluation order is visible; failures
  (`invariant(...)` throws) are `Except.error` carrying the invariant's
  reason string.
* External collaborators (`validateAndParseAddress`, the clock, the
  random source) are fields of an explicit `Env`, and the slippage
  arithmetic of `trade.maximumAmountIn` is a function-valued field of
  `Trade`; the module under verification only hex-encodes its result.
-/

namespace Snowswap

/-- Value of a hexadecimal digit character, as decoded by node's hex
codecs (`none` for any non-hex character). -/
def hexCharVal (c : Char) : Option Nat :=
  if '0' ≤ c ∧ c ≤ '9' then some (c.toNat - '0'.toNat)
  else if 'a' ≤ c ∧ c ≤ 'f' then some (c.toNat - 'a'.toNat + 10)
  else if 'A' ≤ c ∧ c ≤ 'F' then some (c.toNat - 'A'.toNat + 10)
  else none

/-- `Buffer.from(s, 'hex')`: decode pairs of hex digits into bytes,
stopping silently at the first character that is not a hex digit and
dropping a trailing unpaired digit. -/
def bufferFromHex : List Char → List Nat
  | c1 :: c2 :: rest =>
    match hexCharVal c1, hexCharVal c2 with
    | some hi, some lo => (16 * hi + lo) :: bufferFromHex rest
    | _, _ => []
  | _ => []

/-- The two lowercase hex characters of one byte, as produced by
`Buffer.toString('hex')`. -/
def byteHex (b : Nat) : List Char :=
  [Nat.digitChar (b / 16), Nat.digitChar (b % 16)]

def bytesToHex (bs : List Nat) : List Char := (bs.map byteHex).flatten

def parseIntHexAux : List Char → Nat → Nat
  | [], acc => acc
  | c :: rest, acc =>
    match hexCharVal c with
    | some v => parseIntHexAux rest (16 * acc + v)
    | none => acc

/-- `parseInt(s, 16)`: fold the leading hex digits of the string. -/
def parseIntHex (cs : List Char) : Nat := parseIntHexAux cs 0

/-- `pad` from `resolveChallenge` (router.ts lines 66-68): left-pad the
string with '0' up to `count` characters (no-op when already at least
that long, as `Math.max(count - hex.length, 0)` repetitions are used). -/
def pad (hexStr : List Char) (count : Nat) : List Char :=
  List.replicate (count - hexStr.length) '0' ++ hexStr

/-- Minimal lowercase hex digits of a number, i.e. `n.toString(16)` for a
nonnegative JavaScript number or big integer. -/
def natHexDigits (n : Nat) : List Char := Nat.toDigits 16 n

def natHex (n : Nat) : String := String.mk (natHexDigits n)

/-- ethers `BigNumber.toHexString()`: "0x" followed by the minimal hex
digits left-padded to an even count. -/
def toHexStringChars (n : Nat) : List Char :=
  '0' :: 'x' ::
    (if (natHexDigits n).length % 2 = 1 then '0' :: natHexDigits n else natHexDigits n)

/-- The canonical "0x"-prefixed, zero-padded 40-hex-digit string form of
a 160-bit caller address, which is the form `swapCallParameters` passes
to `resolveChallenge`. -/
def addressChars (a : Nat) : List Char := '0' :: 'x' :: pad (natHexDigits a) 40

/-- The JavaScript template `` `0x${i.toString(16)}` `` for a possibly
negative integer (JavaScript renders negative integers with a leading
minus sign after the prefix). -/
def jsIntToHex (i : Int) : String :=
  if i < 0 then "0x-" ++ natHex i.natAbs else "0x" ++ natHex i.toNat

/-- `GOAL` (router.ts line 75). -/
def GOAL : Nat := 69

/-- `0xffffffffffffffffffffffffffffffffffffffff` (router.ts line 95). -/
def ADDR_MAX : Nat := 2 ^ 160 - 1

/-- `limits` (router.ts lines 93-98): the admissible interval chosen from
the parity of the signer. -/
def limits (signer : Nat) : Nat × Nat :=
  if signer % 2 = 0 then (signer + 1, ADDR_MAX) else (0, signer - 1)

/-- `betweenLimits` (router.ts line 100). -/
def betweenLimits (signer challengeKey : Nat) : Bool :=
  decide ((limits signer).1 ≤ challengeKey) && decide (challengeKey ≤ (limits signer).2)

/-- `getBEFB` (router.ts lines 70-73): pad to 40 characters, take the
last two characters (`slice(-2)`), parse them as hex. -/
def getBEFB (ckashHex : List Char) : Nat :=
  parseIntHex ((pad ckashHex 40).drop ((pad ckashHex 40).length - 2))

/-- `xor` (router.ts lines 85-90): drop two leading characters from each
operand, hex-decode both, XOR bytewise over the length of the first
buffer (a missing byte of the second buffer behaves as 0, exactly as
JavaScript's `b ^ undefined` does), and re-encode as hex. -/
def xorHex (hex1 hex2 : List Char) : List Char :=
  bytesToHex ((bufferFromHex (hex1.drop 2)).mapIdx
    (fun i b => b ^^^ (bufferFromHex (hex2.drop 2)).getD i 0))

/-- `resolved` (router.ts lines 102-111), with the caller address given
in canonical form: the candidate must lie inside the admissible
interval, and the byte extracted by `getBEFB` from the xor of the
address string with the 40-character padding of the candidate's
`toHexString` must equal `GOAL`. -/
def resolved (signer challengeKey : Nat) : Bool :=
  if !betweenLimits signer challengeKey then false
  else
    decide (getBEFB (xorHex (addressChars signer)
      (pad (toHexStringChars challengeKey) 40)) = GOAL)

/-- `resolveChallenge` (router.ts lines 64-120): return the first drawn
candidate accepted by `resolved`. The unbounded retry loop is modelled
by `Nat.find` under the hypothesis that the candidate stream eventually
yields an accepted value. -/
def resolveChallenge (signer : Nat) (stream : Nat → Nat)
    (h : ∃ n, resolved signer (stream n) = true) : Nat :=
  stream (Nat.find h)

/-- Currencies: the `ETHER` sentinel or an ordinary token. -/
inductive Currency
  | ether
  | token (symbol : String)
deriving DecidableEq

def isEther (c : Currency) : Bool := c == Currency.ether

structure CurrencyAmount where
  currency : Currency
  raw : Nat

/-- `toHex` (router.ts lines 58-60). -/
def toHex (amount : CurrencyAmount) : String := "0x" ++ natHex amount.raw

/-- `ZERO_HEX` (router.ts line 62). -/
def ZERO_HEX : String := "0x0"

inductive TradeType
  | EXACT_INPUT
  | EXACT_OUTPUT
deriving DecidableEq

structure Token where
  address : String
deriving DecidableEq

/-- Slippage tolerance ratio; opaque to this module, which only passes
it on to the external `maximumAmountIn` collaborator. -/
structure Percent where
  num : Nat
  den : Nat
deriving DecidableEq

/-- The parts of the external `Trade` entity read by
`swapCallParameters`: the two legs, the trade type, `route.path`, and
the slippage-adjusted maximum input amount (external arithmetic,
modelled as a function-valued field). -/
structure Trade where
  inputAmount : CurrencyAmount
  outputAmount : CurrencyAmount
  tradeType : TradeType
  path : List Token
  maximumAmountIn : Percent → CurrencyAmount

/-- Either a relative `ttl` (`TradeOptions`) or an absolute `deadline`
(`TradeOptionsDeadline`); the source distinguishes them with
`'ttl' in options`. -/
inductive Expiry
  | ttl (seconds : Int)
  | deadline (timestamp : Nat)
deriving DecidableEq

structure TradeOptions where
  allowedSlippage : Percent
  expiry : Expiry
  recipient : String
  feeOnTransfer : Option Bool

/-- One element of `args`: a hex scalar string or the path, a list of
addresses. -/
inductive Arg
  | scalar (s : String)
  | addrList (l : List String)
deriving DecidableEq

structure SwapParameters where
  methodName : String
  args : List Arg
  value : String
deriving DecidableEq

/-- Observable effects of `swapCallParameters`, in the order the source
performs them. -/
inductive Event
  | resolverInvoked
  | recipientValidated
  | amountInEncoded
  | deadlineEncoded
deriving DecidableEq

/-- External collaborators of the builder: the address validator, the
clock (`Math.floor(Date.now() / 1000)`), and the random candidate
stream consumed by `resolveChallenge`. -/
structure Env where
  validateAndParseAddress : String → Except String String
  now : Nat
  randomStream : Nat → Nat

/-- The TTL invariant (router.ts line 140) is violated exactly when a
relative ttl is present and not strictly positive. -/
def ttlViolated : Expiry → Bool
  | .ttl t => decide (t ≤ 0)
  | .deadline _ => false

/-- The deadline argument (router.ts lines 147-150). -/
def deadlineHex (now : Nat) : Expiry → String
  | .ttl t => jsIntToHex ((now : Int) + t)
  | .deadline d => "0x" ++ natHex d

/-- `Router.swapCallParameters` (router.ts lines 134-203), with its
event trace made explicit. The source resolves the challenge key first
(line 135), then checks the `ETHER_IN_OUT` and `TTL` invariants, then
validates the recipient and encodes amounts, path and deadline, and
finally selects the method from the trade type and leg nativity; the
`EXACT_OUT_FOT` invariant sits inside the `EXACT_OUTPUT` branch
(line 179), after all encoding. -/
def swapCallParameters (env : Env) (trade : Trade) (options : TradeOptions)
    (caller : Nat) (h : ∃ n, resolved caller (env.randomStream n) = true) :
    List Event × Except String SwapParameters :=
  let challengeKey := resolveChallenge caller env.randomStream h
  let etherIn := isEther trade.inputAmount.currency
  let etherOut := isEther trade.outputAmount.currency
  if etherIn && etherOut then ([Event.resolverInvoked], Except.error "ETHER_IN_OUT")
  else if ttlViolated options.expiry then ([Event.resolverInvoked], Except.error "TTL")
  else
    match env.validateAndParseAddress options.recipient with
    | Except.error e => ([Event.resolverInvoked, Event.recipientValidated], Except.error e)
    | Except.ok toAddr =>
      let amountIn := toHex (trade.maximumAmountIn options.allowedSlippage)
      let amountOut := ZERO_HEX
      let path := trade.path.map Token.address
      let deadline := deadlineHex env.now options.expiry
      let useFeeOnTransfer := options.feeOnTransfer.getD false
      let keyHex := String.mk (toHexStringChars challengeKey)
      let trace := [Event.resolverInvoked, Event.recipientValidated,
        Event.amountInEncoded, Event.deadlineEncoded]
      match trade.tradeType with
      | TradeType.EXACT_INPUT =>
        if etherIn then
          (trace, Except.ok
            { methodName := if useFeeOnTransfer then
                "swapExactETHForTokensSupportingFeeOnTransferTokens" else "swapExactETHForTokens"
              args := [Arg.scalar amountOut, Arg.addrList path, Arg.scalar toAddr,
                Arg.scalar deadline, Arg.scalar keyHex]
              value := amountIn })
        else if etherOut then
          (trace, Except.ok
            { methodName := if useFeeOnTransfer then
                "swapExactTokensForETHSupportingFeeOnTransferTokens" else "swapExactTokensForETH"
              args := [Arg.scalar amountIn, Arg.scalar amountOut, Arg.addrList path,
                Arg.scalar toAddr, Arg.scalar deadline, Arg.scalar keyHex]
              value := ZERO_HEX })
        else
          (trace, Except.ok
            { methodName := if useFeeOnTransfer then
                "swapExactTokensForTokensSupportingFeeOnTransferTokens" else "swapExactTokensForTokens"
              args := [Arg.scalar amountIn, Arg.scalar amountOut, Arg.addrList path,
                Arg.scalar toAddr, Arg.scalar deadline, Arg.scalar keyHex]
              value := ZERO_HEX })
      | TradeType.EXACT_OUTPUT =>
        if useFeeOnTransfer then (trace, Except.error "EXACT_OUT_FOT")
        else if etherIn then
          (trace, Except.ok
            { methodName := "swapETHForExactTokens"
              args := [Arg.scalar amountOut, Arg.addrList path, Arg.scalar toAddr,
                Arg.scalar deadline, Arg.scalar keyHex]
              value := amountIn })
        else if etherOut then
          (trace, Except.ok
            { methodName := "swapTokensForExactETH"
              args := [Arg.scalar amountOut, Arg.scalar amountIn, Arg.addrList path,
                Arg.scalar toAddr, Arg.scalar deadline, Arg.scalar keyHex]
              value := ZERO_HEX })
        else
          (trace, Except.ok
            { methodName := "swapTokensForExactTokens"
              args := [Arg.scalar amountOut, Arg.scalar amountIn, Arg.addrList path,
                Arg.scalar toAddr, Arg.scalar deadline, Arg.scalar keyHex]
              value := ZERO_HEX })

/-- Modelled from the spec (§4.1 step 2b), for the refinement check of
the challenge predicate: treat the signer and the zero-padded
40-hex-digit representation of the candidate as equal-length byte
strings, XOR them bytewise, and take the last byte of the result. -/
def specXorLastByte (signer key : Nat) : Nat :=
  (List.zipWith (fun a b => a ^^^ b)
      (bufferFromHex (pad (natHexDigits signer) 40))
      (bufferFromHex (pad (natHexDigits key) 40))).getD 19 0

/-- Modelled from the spec (§4.2's decision table), for the refinement
check of the builder: the method name, argument order (the challenge
key always last) and native value for each of the 9 admissible
(direction, input-is-native, output-is-native, fee-on-transfer)
combinations, with the spec's abstract "native" method names realized
as the concrete router method names; combinations outside the table
give `none`. `amountOutArg` is the argument the builder supplies for
the min-output / exact-output slot. -/
def specTableCall (direction : TradeType) (etherIn etherOut fot : Bool)
    (amountInHex amountOutArg : String) (path : List String)
    (toAddr deadline keyHex : String) : Option SwapParameters :=
  match direction, etherIn, etherOut, fot with
  | TradeType.EXACT_INPUT, true, false, false =>
    some { methodName := "swapExactETHForTokens"
           args := [Arg.scalar amountOutArg, Arg.addrList path, Arg.scalar toAddr,
             Arg.scalar deadline, Arg.scalar keyHex]
           value := amountInHex }
  | TradeType.EXACT_INPUT, true, false, true =>
    some { methodName := "swapExactETHForTokensSupportingFeeOnTransferTokens"
           args := [Arg.scalar amountOutArg, Arg.addrList path, Arg.scalar toAddr,
             Arg.scalar deadline, Arg.scalar keyHex]
           value := amountInHex }
  | TradeType.EXACT_INPUT, false, true, false =>
    some { methodName := "swapExactTokensForETH"
           args := [Arg.scalar amountInHex, Arg.scalar amountOutArg, Arg.addrList path,
             Arg.scalar toAddr, Arg.scalar deadline, Arg.scalar keyHex]
           value := "0x0" }
  | TradeType.EXACT_INPUT, false, true, true =>
    some { methodName := "swapExactTokensForETHSupportingFeeOnTransferTokens"
           args := [Arg.scalar amountInHex, Arg.scalar amountOutArg, Arg.addrList path,
             Arg.scalar toAddr, Arg.scalar deadline, Arg.scalar keyHex]
           value := "0x0" }
  | TradeType.EXACT_INPUT, false, false, false =>
    some { methodName := "swapExactTokensForTokens"
           args := [Arg.scalar amountInHex, Arg.scalar amountOutArg, Arg.addrList path,
             Arg.scalar toAddr, Arg.scalar deadline, Arg.scalar keyHex]
           value := "0x0" }
  | TradeType.EXACT_INPUT, false, false, true =>
    some { methodName := "swapExactTokensForTokensSupportingFeeOnTransferTokens"
           args := [Arg.scalar amountInHex, Arg.scalar amountOutArg, Arg.addrList path,
             Arg.scalar toAddr, Arg.scalar deadline, Arg.scalar keyHex]
           value := "0x0" }
  | TradeType.EXACT_OUTPUT, true, false, false =>
    some { methodName := "swapETHForExactTokens"
           args := [Arg.scalar amountOutArg, Arg.addrList path, Arg.scalar toAddr,
             Arg.scalar deadline, Arg.scalar keyHex]
           value := amountInHex }
  | TradeType.EXACT_OUTPUT, false, true, false =>
    some { methodName := "swapTokensForExactETH"
           args := [Arg.scalar amountOutArg, Arg.scalar amountInHex, Arg.addrList path,
             Arg.scalar toAddr, Arg.scalar deadline, Arg.scalar keyHex]
           value := "0x0" }
  | TradeType.EXACT_OUTPUT, false, false, false =>
    some { methodName := "swapTokensForExactTokens"
           args := [Arg.scalar amountOutArg, Arg.scalar amountInHex, Arg.addrList path,
             Arg.scalar toAddr, Arg.scalar deadline, Arg.scalar keyHex]
           value := "0x0" }
  | _, _, _, _ => none

/-! Concrete fixtures used by witnesses and counterexamples. The caller
address 69 (`0x…045`) is odd, so its admissible interval is `[0, 68]`;
the constant candidate stream drawing 1 is accepted on its first draw
(1 is in range, and — through the padding slip analysed for claim C3 —
the byte check passes because the signer's own last byte is 69). -/

def env0 : Env :=
  { validateAndParseAddress := fun s => Except.ok s
    now := 1700000000
    randomStream := fun _ => 1 }

def tokenA : Token := { address := "0xaaaa" }

def tokenB : Token := { address := "0xbbbb" }

def trade0 : Trade :=
  { inputAmount := { currency := Currency.token "A", raw := 100 }
    outputAmount := { currency := Currency.token "B", raw := 200 }
    tradeType := TradeType.EXACT_INPUT
    path := [tokenA, tokenB]
    maximumAmountIn := fun _ => { currency := Currency.token "A", raw := 100 } }

/-- An (invalid) trade whose legs are both the native currency. -/
def tradeBoth : Trade :=
  { trade0 with
    inputAmount := { currency := Currency.ether, raw := 100 }
    outputAmount := { currency := Currency.ether, raw := 200 } }

/-- An exact-output trade between two ordinary tokens. -/
def tradeOut : Trade := { trade0 with tradeType := TradeType.EXACT_OUTPUT }

def opts0 : TradeOptions :=
  { allowedSlippage := { num := 1, den := 100 }
    expiry := Expiry.ttl 1200
    recipient := "0xrecipient"
    feeOnTransfer := none }

/-- Options carrying a non-positive time-to-live. -/
def optsTtl0 : TradeOptions := { opts0 with expiry := Expiry.ttl 0 }

/-- Options carrying an absolute deadline of zero. -/
def optsDl0 : TradeOptions := { opts0 with expiry := Expiry.deadline 0 }

/-- Options requesting fee-on-transfer handling. -/
def optsFot : TradeOptions := { opts0 with feeOnTransfer := some true }

/-! ## Helper lemmas -/

/-- A candidate accepted by `resolved` lies between the limits (the
range test is the first conjunct of the source predicate). -/
theorem resolved_between {s k : Nat} (hr : resolved s k = true) :
    betweenLimits s k = true := by
  by_cases hb : betweenLimits s k = true
  · exact hb
  · rw [Bool.not_eq_true] at hb
    simp [resolved, hb] at hr

theorem betweenLimits_bounds {s k : Nat} (hb : betweenLimits s k = true) :
    (limits s).1 ≤ k ∧ k ≤ (limits s).2 := by
  simpa [betweenLimits] using hb

/-- The constant candidate stream of `env0` is accepted at its first
draw for caller 69. -/
theorem envStream_resolves : ∃ n, resolved 69 (env0.randomStream n) = true :=
  ⟨0, by decide⟩

/-! ## Claims -/

/-- Claim C2: for every even-valued signer, the value returned by
`resolveChallenge` lies in `[signer+1, 2^160-1]`; for every odd-valued
signer it lies in `[0, signer-1]`; consequently the returned key is
numerically distinct from the signer. -/
theorem resolveChallenge_range (signer : Nat) (stream : Nat → Nat)
    (h : ∃ n, resolved signer (stream n) = true) :
    (signer % 2 = 0 →
      signer + 1 ≤ resolveChallenge signer stream h ∧
        resolveChallenge signer stream h ≤ 2 ^ 160 - 1) ∧
    (signer % 2 = 1 → resolveChallenge signer stream h ≤ signer - 1) ∧
    resolveChallenge signer stream h ≠ signer := by
  have hr : resolved signer (stream (Nat.find h)) = true := Nat.find_spec h
  have hb := betweenLimits_bounds (resolved_between hr)
  simp only [resolveChallenge]
  rcases Nat.mod_two_eq_zero_or_one signer with hp | hp
  · rw [limits, if_pos hp] at hb
    simp only [ADDR_MAX] at hb
    exact ⟨fun _ => hb, fun h1 => by omega, by omega⟩
  · rw [limits, if_neg (by omega)] at hb
    exact ⟨fun h0 => by omega, fun _ => hb.2, by omega⟩

/-- Witness for C2, at signer 69 (odd) with the constant candidate
stream of `env0`. -/
theorem resolveChallenge_range_witness :
    (69 % 2 = 0 →
      69 + 1 ≤ resolveChallenge 69 env0.randomStream envStream_resolves ∧
        resolveChallenge 69 env0.randomStream envStream_resolves ≤ 2 ^ 160 - 1) ∧
    (69 % 2 = 1 → resolveChallenge 69 env0.randomStream envStream_resolves ≤ 69 - 1) ∧
    resolveChallenge 69 env0.randomStream envStream_resolves ≠ 69 :=
  resolveChallenge_range 69 env0.randomStream envStream_resolves

/-- Claim C8: under the assumption that the random source eventually
yields an accepted candidate, `resolveChallenge` terminates and returns
the first accepted draw of the stream; no failure mode is exposed, and
no iteration cap truncates the search (the result is exactly the first
`n` at which the predicate holds, however large). -/
theorem resolveChallenge_terminates (signer : Nat) (stream : Nat → Nat)
    (h : ∃ n, resolved signer (stream n) = true) :
    ∃ n, resolveChallenge signer stream h = stream n ∧
      resolved signer (stream n) = true ∧
      ∀ m, m < n → resolved signer (stream m) = false := by
  refine ⟨Nat.find h, rfl, Nat.find_spec h, fun m hm => ?_⟩
  simpa using Nat.find_min h hm

/-- Witness for C8, at signer 69 with the constant candidate stream of
`env0`. -/
theorem resolveChallenge_terminates_witness :
    ∃ n, resolveChallenge 69 env0.randomStream envStream_resolves = env0.randomStream n ∧
      resolved 69 (env0.randomStream n) = true ∧
      ∀ m, m < n → resolved 69 (env0.randomStream m) = false :=
  resolveChallenge_terminates 69 env0.randomStream envStream_resolves

/-- Claim C3 (refuted — code bug): the claim states that for every
returned key, the last byte of the bytewise XOR of the signer with the
zero-padded 40-hex-digit representation of the key equals 69. The code
instead pads the "0x"-prefixed `toHexString` output to 40 characters
overall (line 107), so for keys below 2^152 the buffer decode in `xor`
truncates at the 'x' character and the check degenerates to comparing
the signer's own last byte with 69. Concretely, for the signer address
`0x…045` the code accepts candidate 1 (and returns it under a stream
that draws 1), yet the claimed XOR last byte is 69 XOR 1 = 68, not
69. -/
theorem resolveChallenge_xor_bug :
    resolved 69 1 = true ∧
    resolveChallenge 69 env0.randomStream envStream_resolves = 1 ∧
    specXorLastByte 69 1 = 68 ∧
    specXorLastByte 69 1 ≠ GOAL :=
  ⟨by decide, rfl, by decide, by decide⟩

/-- Claim C6 (amended): with a recipient accepted by the external
validator, `swapCallParameters` fails with "ETHER_IN_OUT" exactly when
both legs are native; with "TTL" exactly when the legs are not both
native and a non-positive time-to-live is present; with
"EXACT_OUT_FOT" exactly when the two earlier invariants pass and the
trade is exact-output with fee-on-transfer requested; and on all other
such inputs it returns a SwapCall. (The original claim's unordered
"exactly when" reading fails because the checks are ordered:
see `swapCallParameters_ttl_masked_cx`.) -/
theorem swapCallParameters_error_reasons (env : Env) (trade : Trade)
    (options : TradeOptions) (caller : Nat) (toAddr : String)
    (h : ∃ n, resolved caller (env.randomStream n) = true)
    (hAddr : env.validateAndParseAddress options.recipient = Except.ok toAddr) :
    ((swapCallParameters env trade options caller h).2 = Except.error "ETHER_IN_OUT" ↔
      (isEther trade.inputAmount.currency && isEther trade.outputAmount.currency) = true) ∧
    ((swapCallParameters env trade options caller h).2 = Except.error "TTL" ↔
      ((isEther trade.inputAmount.currency && isEther trade.outputAmount.currency) = false ∧
        ttlViolated options.expiry = true)) ∧
    ((swapCallParameters env trade options caller h).2 = Except.error "EXACT_OUT_FOT" ↔
      ((isEther trade.inputAmount.currency && isEther trade.outputAmount.currency) = false ∧
        ttlViolated options.expiry = false ∧
        trade.tradeType = TradeType.EXACT_OUTPUT ∧
        options.feeOnTransfer.getD false = true)) ∧
    ((∃ p, (swapCallParameters env trade options caller h).2 = Except.ok p) ↔
      ((isEther trade.inputAmount.currency && isEther trade.outputAmount.currency) = false ∧
        ttlViolated options.expiry = false ∧
        ¬(trade.tradeType = TradeType.EXACT_OUTPUT ∧
          options.feeOnTransfer.getD false = true))) := by
  cases hIn : isEther trade.inputAmount.currency <;>
  cases hOut : isEther trade.outputAmount.currency <;>
  cases hTl : ttlViolated options.expiry <;>
  cases hT : trade.tradeType <;>
  cases hF : options.feeOnTransfer.getD false <;>
  simp_all [swapCallParameters, hAddr]

/-- Counterexample for C6 as stated: a both-native trade whose options
carry a zero time-to-live fails with "ETHER_IN_OUT", not with "TTL",
although the options carry a time-to-live that is zero or negative. -/
theorem swapCallParameters_ttl_masked_cx :
    optsTtl0.expiry = Expiry.ttl 0 ∧
    (swapCallParameters env0 tradeBoth optsTtl0 69 envStream_resolves).2 =
      Except.error "ETHER_IN_OUT" ∧
    "ETHER_IN_OUT" ≠ "TTL" :=
  ⟨rfl, rfl, by decide⟩

/-- Witness for C6 (amended), at a valid token-to-token exact-input
trade. -/
theorem swapCallParameters_error_reasons_witness :
    ((swapCallParameters env0 trade0 opts0 69 envStream_resolves).2 =
        Except.error "ETHER_IN_OUT" ↔
      (isEther trade0.inputAmount.currency &&
        isEther trade0.outputAmount.currency) = true) ∧
    ((swapCallParameters env0 trade0 opts0 69 envStream_resolves).2 =
        Except.error "TTL" ↔
      ((isEther trade0.inputAmount.currency &&
          isEther trade0.outputAmount.currency) = false ∧
        ttlViolated opts0.expiry = true)) ∧
    ((swapCallParameters env0 trade0 opts0 69 envStream_resolves).2 =
        Except.error "EXACT_OUT_FOT" ↔
      ((isEther trade0.inputAmount.currency &&
          isEther trade0.outputAmount.currency) = false ∧
        ttlViolated opts0.expiry = false ∧
        trade0.tradeType = TradeType.EXACT_OUTPUT ∧
        opts0.feeOnTransfer.getD false = true)) ∧
    ((∃ p, (swapCallParameters env0 trade0 opts0 69 envStream_resolves).2 =
        Except.ok p) ↔
      ((isEther trade0.inputAmount.currency &&
          isEther trade0.outputAmount.currency) = false ∧
        ttlViolated opts0.expiry = false ∧
        ¬(trade0.tradeType = TradeType.EXACT_OUTPUT ∧
          opts0.feeOnTransfer.getD false = true))) :=
  swapCallParameters_error_reasons env0 trade0 opts0 69 "0xrecipient"
    envStream_resolves rfl

/-- Claim C1: for every valid trade input, `swapCallParameters` returns
exactly the method name, argument order (with the hex-encoded challenge
key as the final element of args) and native value specified by the
spec's decision table for its (direction, input-is-native,
output-is-native, fee-on-transfer) combination; in particular the value
is the hex-encoded maximum input amount when the input leg is native
and "0x0" otherwise (folded into `specTableCall`). -/
theorem swapCallParameters_decision_table (env : Env) (trade : Trade)
    (options : TradeOptions) (caller : Nat) (toAddr : String)
    (h : ∃ n, resolved caller (env.randomStream n) = true)
    (hEth : ¬(isEther trade.inputAmount.currency = true ∧
      isEther trade.outputAmount.currency = true))
    (hTtl : ttlViolated options.expiry = false)
    (hAddr : env.validateAndParseAddress options.recipient = Except.ok toAddr)
    (hFot : trade.tradeType = TradeType.EXACT_OUTPUT →
      options.feeOnTransfer.getD false = false) :
    ∃ p, (swapCallParameters env trade options caller h).2 = Except.ok p ∧
      specTableCall trade.tradeType (isEther trade.inputAmount.currency)
        (isEther trade.outputAmount.currency) (options.feeOnTransfer.getD false)
        (toHex (trade.maximumAmountIn options.allowedSlippage)) ZERO_HEX
        (trade.path.map Token.address) toAddr (deadlineHex env.now options.expiry)
        (String.mk (toHexStringChars (resolveChallenge caller env.randomStream h))) =
        some p := by
  cases hIn : isEther trade.inputAmount.currency <;>
  cases hOut : isEther trade.outputAmount.currency <;>
  cases hT : trade.tradeType <;>
  cases hF : options.feeOnTransfer.getD false <;>
  simp_all [swapCallParameters, specTableCall, ZERO_HEX, hAddr]

/-- Witness for C1, at a token-to-token exact-input trade without
fee-on-transfer. -/
theorem swapCallParameters_decision_table_witness :
    ∃ p, (swapCallParameters env0 trade0 opts0 69 envStream_resolves).2 =
        Except.ok p ∧
      specTableCall trade0.tradeType (isEther trade0.inputAmount.currency)
        (isEther trade0.outputAmount.currency) (opts0.feeOnTransfer.getD false)
        (toHex (trade0.maximumAmountIn opts0.allowedSlippage)) ZERO_HEX
        (trade0.path.map Token.address) "0xrecipient" (deadlineHex env0.now opts0.expiry)
        (String.mk (toHexStringChars
          (resolveChallenge 69 env0.randomStream envStream_resolves))) = some p :=
  swapCallParameters_decision_table env0 trade0 opts0 69 "0xrecipient"
    envStream_resolves (by decide) (by decide) rfl (fun hc => absurd hc (by decide))

/-- Claim C4: for every valid builder input and every configured
slippage tolerance, the minimum-output-amount argument placed in args
(index 0 for native-input exact-input trades and for all exact-output
trades, index 1 otherwise) is the zero hex scalar "0x0". -/
theorem swapCallParameters_min_out_zero (env : Env) (trade : Trade)
    (options : TradeOptions) (caller : Nat) (toAddr : String)
    (h : ∃ n, resolved caller (env.randomStream n) = true)
    (hEth : ¬(isEther trade.inputAmount.currency = true ∧
      isEther trade.outputAmount.currency = true))
    (hTtl : ttlViolated options.expiry = false)
    (hAddr : env.validateAndParseAddress options.recipient = Except.ok toAddr)
    (hFot : trade.tradeType = TradeType.EXACT_OUTPUT →
      options.feeOnTransfer.getD false = false) :
    ∃ p, (swapCallParameters env trade options caller h).2 = Except.ok p ∧
      (trade.tradeType = TradeType.EXACT_INPUT ∧
          isEther trade.inputAmount.currency = true →
        p.args[0]? = some (Arg.scalar "0x0")) ∧
      (trade.tradeType = TradeType.EXACT_INPUT ∧
          isEther trade.inputAmount.currency = false →
        p.args[1]? = some (Arg.scalar "0x0")) ∧
      (trade.tradeType = TradeType.EXACT_OUTPUT →
        p.args[0]? = some (Arg.scalar "0x0")) := by
  cases hIn : isEther trade.inputAmount.currency <;>
  cases hOut : isEther trade.outputAmount.currency <;>
  cases hT : trade.tradeType <;>
  cases hF : options.feeOnTransfer.getD false <;>
  simp_all [swapCallParameters, ZERO_HEX, hAddr]

/-- Witness for C4. -/
theorem swapCallParameters_min_out_zero_witness :
    ∃ p, (swapCallParameters env0 trade0 opts0 69 envStream_resolves).2 =
        Except.ok p ∧
      (trade0.tradeType = TradeType.EXACT_INPUT ∧
          isEther trade0.inputAmount.currency = true →
        p.args[0]? = some (Arg.scalar "0x0")) ∧
      (trade0.tradeType = TradeType.EXACT_INPUT ∧
          isEther trade0.inputAmount.currency = false →
        p.args[1]? = some (Arg.scalar "0x0")) ∧
      (trade0.tradeType = TradeType.EXACT_OUTPUT →
        p.args[0]? = some (Arg.scalar "0x0")) :=
  swapCallParameters_min_out_zero env0 trade0 opts0 69 "0xrecipient"
    envStream_resolves (by decide) (by decide) rfl (fun hc => absurd hc (by decide))

/-- Claim C5 (amended): when `swapCallParameters` is called with inputs
violating an invariant (both legs native, a present non-positive
time-to-live, or exact-output with fee-on-transfer requested), it fails
without returning a SwapCall — but ChallengeResolver has already been
invoked at that point: its invocation is the first effect of every
call, so randomness is consumed even on failing paths. (The original
claim, that no randomness is consumed before the failure, is refuted by
`swapCallParameters_resolver_first_cx`.) -/
theorem swapCallParameters_fails_after_resolver (env : Env) (trade : Trade)
    (options : TradeOptions) (caller : Nat) (toAddr : String)
    (h : ∃ n, resolved caller (env.randomStream n) = true)
    (hAddr : env.validateAndParseAddress options.recipient = Except.ok toAddr)
    (hViol : (isEther trade.inputAmount.currency &&
        isEther trade.outputAmount.currency) = true ∨
      ttlViolated options.expiry = true ∨
      (trade.tradeType = TradeType.EXACT_OUTPUT ∧
        options.feeOnTransfer.getD false = true)) :
    (∃ e, (swapCallParameters env trade options caller h).2 = Except.error e) ∧
    ((swapCallParameters env trade options caller h).1).head? =
      some Event.resolverInvoked := by
  cases hIn : isEther trade.inputAmount.currency <;>
  cases hOut : isEther trade.outputAmount.currency <;>
  cases hTl : ttlViolated options.expiry <;>
  cases hT : trade.tradeType <;>
  cases hF : options.feeOnTransfer.getD false <;>
  simp_all [swapCallParameters, hAddr]

/-- Counterexample for C5 as stated: a both-native trade fails with
"ETHER_IN_OUT", yet the trace of the call records the resolver
invocation — the challenge resolver runs (and consumes randomness)
before the invariant check fails. -/
theorem swapCallParameters_resolver_first_cx :
    (swapCallParameters env0 tradeBoth opts0 69 envStream_resolves).1 =
      [Event.resolverInvoked] ∧
    (swapCallParameters env0 tradeBoth opts0 69 envStream_resolves).2 =
      Except.error "ETHER_IN_OUT" :=
  ⟨rfl, rfl⟩

/-- Witness for C5 (amended), at a both-native trade. -/
theorem swapCallParameters_fails_after_resolver_witness :
    (∃ e, (swapCallParameters env0 tradeBoth opts0 69 envStream_resolves).2 =
      Except.error e) ∧
    ((swapCallParameters env0 tradeBoth opts0 69 envStream_resolves).1).head? =
      some Event.resolverInvoked :=
  swapCallParameters_fails_after_resolver env0 tradeBoth opts0 69 "0xrecipient"
    envStream_resolves rfl (Or.inl (by decide))

/-- Claim C7: for every valid input, the deadline argument (the
second-to-last element of args, just before the challenge key) equals
the hex encoding of current epoch seconds plus the ttl when the options
carry a relative time-to-live, and the hex encoding of the given
absolute deadline when they carry a deadline instead. -/
theorem swapCallParameters_deadline_arg (env : Env) (trade : Trade)
    (options : TradeOptions) (caller : Nat) (toAddr : String)
    (h : ∃ n, resolved caller (env.randomStream n) = true)
    (hEth : ¬(isEther trade.inputAmount.currency = true ∧
      isEther trade.outputAmount.currency = true))
    (hTtl : ttlViolated options.expiry = false)
    (hAddr : env.validateAndParseAddress options.recipient = Except.ok toAddr)
    (hFot : trade.tradeType = TradeType.EXACT_OUTPUT →
      options.feeOnTransfer.getD false = false) :
    ∃ p, (swapCallParameters env trade options caller h).2 = Except.ok p ∧
      p.args[p.args.length - 2]? = some (Arg.scalar
        (match options.expiry with
          | Expiry.ttl t => jsIntToHex ((env.now : Int) + t)
          | Expiry.deadline d => "0x" ++ natHex d)) := by
  cases hE : options.expiry <;>
  cases hIn : isEther trade.inputAmount.currency <;>
  cases hOut : isEther trade.outputAmount.currency <;>
  cases hT : trade.tradeType <;>
  cases hF : options.feeOnTransfer.getD false <;>
  simp_all [swapCallParameters, deadlineHex, hAddr]

/-- Witness for C7, with a relative time-to-live of 1200 seconds. -/
theorem swapCallParameters_deadline_arg_witness :
    ∃ p, (swapCallParameters env0 trade0 opts0 69 envStream_resolves).2 =
        Except.ok p ∧
      p.args[p.args.length - 2]? = some (Arg.scalar
        (match opts0.expiry with
          | Expiry.ttl t => jsIntToHex ((env0.now : Int) + t)
          | Expiry.deadline d => "0x" ++ natHex d)) :=
  swapCallParameters_deadline_arg env0 trade0 opts0 69 "0xrecipient"
    envStream_resolves (by decide) (by decide) rfl (fun hc => absurd hc (by decide))

/-- Claim C9: a call with the optional `feeOnTransfer` field absent
behaves identically — same trace and same result, hence the
non-fee-supporting method variant and unchanged outputs — to the same
call with `feeOnTransfer` explicitly set to false. -/
theorem swapCallParameters_fee_default (env : Env) (trade : Trade) (caller : Nat)
    (options : TradeOptions) (hNone : options.feeOnTransfer = none)
    (h : ∃ n, resolved caller (env.randomStream n) = true) :
    swapCallParameters env trade options caller h =
      swapCallParameters env trade
        { options with feeOnTransfer := some false } caller h := by
  obtain ⟨sl, ex, rec, fot⟩ := options
  simp only at hNone
  subst hNone
  simp [swapCallParameters]

/-- Witness for C9. -/
theorem swapCallParameters_fee_default_witness :
    swapCallParameters env0 trade0 opts0 69 envStream_resolves =
      swapCallParameters env0 trade0
        { opts0 with feeOnTransfer := some false } 69 envStream_resolves :=
  swapCallParameters_fee_default env0 trade0 69 opts0 rfl envStream_resolves

/-- Claim C10: when the options carry an absolute deadline instead of a
time-to-live, no positivity or range check applies to it: for every
deadline value `d` — zero included — the call succeeds (under the other
invariants) and `d` is hex-encoded directly into the deadline slot of
args. No `ttl`-related hypothesis is needed, as the TTL invariant is
vacuous for absolute deadlines. -/
theorem swapCallParameters_deadline_unchecked (env : Env) (trade : Trade)
    (options : TradeOptions) (caller : Nat) (toAddr : String) (d : Nat)
    (h : ∃ n, resolved caller (env.randomStream n) = true)
    (hD : options.expiry = Expiry.deadline d)
    (hEth : ¬(isEther trade.inputAmount.currency = true ∧
      isEther trade.outputAmount.currency = true))
    (hAddr : env.validateAndParseAddress options.recipient = Except.ok toAddr)
    (hFot : trade.tradeType = TradeType.EXACT_OUTPUT →
      options.feeOnTransfer.getD false = false) :
    ∃ p, (swapCallParameters env trade options caller h).2 = Except.ok p ∧
      p.args[p.args.length - 2]? = some (Arg.scalar ("0x" ++ natHex d)) := by
  cases hIn : isEther trade.inputAmount.currency <;>
  cases hOut : isEther trade.outputAmount.currency <;>
  cases hT : trade.tradeType <;>
  cases hF : options.feeOnTransfer.getD false <;>
  simp_all [swapCallParameters, deadlineHex, ttlViolated, hAddr, hD]

/-- Witness for C10, with an absolute deadline of zero. -/
theorem swapCallParameters_deadline_unchecked_witness :
    ∃ p, (swapCallParameters env0 trade0 optsDl0 69 envStream_resolves).2 =
        Except.ok p ∧
      p.args[p.args.length - 2]? = some (Arg.scalar ("0x" ++ natHex 0)) :=
  swapCallParameters_deadline_unchecked env0 trade0 optsDl0 69 "0xrecipient" 0
    envStream_resolves rfl (by decide) rfl (fun hc => absurd hc (by decide))

end Snowswap
